import Mathlib

/-!
Verification of the Credential & Session Manager of the SaaS Starter API
(`main.py`, `schemas.py`).

The Python source is shallowly embedded: pure helpers become Lean
functions, the document store becomes an explicit `Store` value threaded
through the endpoint functions, byte strings become `List Nat` (each
entry a byte value), and raised exceptions become `Except` errors.
Randomness drawn from the OS (`secrets.token_hex`, `secrets.token_urlsafe`)
is passed in as an explicit list of random bytes.  The PBKDF2 primitive
(`hashlib.pbkdf2_hmac`) is an external library function; the development
is parametric over it (a variable `kdf` taking the hash name, the message
bytes, the salt bytes and the iteration count), which is sound for every
property below: none depends on the internals of the KDF, only on how the
repository's code invokes it.
-/

namespace SaaS

/-- The type of the external PBKDF2 primitive `hashlib.pbkdf2_hmac`:
hash name, password bytes, salt bytes, iteration count, returning the
derived key bytes. -/
abbrev KDF := String → List Nat → List Nat → Nat → List Nat

/-- A Python exception raised by library code used in the core
(`bytes.fromhex` raises `ValueError` on non-hex input). -/
inductive PyErr where
  | valueError
deriving DecidableEq, Repr

/-- The lowercase hexadecimal digit character for a value below 16. -/
def hexDigitChar (n : Nat) : Char :=
  if n < 10 then Char.ofNat ('0'.toNat + n) else Char.ofNat ('a'.toNat + (n - 10))

/-- The two lowercase hex characters rendering one byte
(Python `bytes.hex` renders each byte high nibble first). -/
def byteToHex (b : Nat) : List Char := [hexDigitChar (b / 16), hexDigitChar (b % 16)]

/-- Hex rendering of a byte string, as produced by Python's `bytes.hex`. -/
def bytesToHex (bs : List Nat) : String := String.mk ((bs.map byteToHex).flatten)

/-- Numeric value of one hex digit character (upper or lower case),
`none` when the character is not a hex digit. -/
def hexVal (c : Char) : Option Nat :=
  if '0' ≤ c ∧ c ≤ '9' then some (c.toNat - '0'.toNat)
  else if 'a' ≤ c ∧ c ≤ 'f' then some (c.toNat - 'a'.toNat + 10)
  else if 'A' ≤ c ∧ c ≤ 'F' then some (c.toNat - 'A'.toNat + 10)
  else none

/-- Decode a hex character list two digits at a time, as Python's
`bytes.fromhex` does; `none` models the `ValueError` raised on an odd
length or a non-hex character. -/
def hexCharsToBytes : List Char → Option (List Nat)
  | [] => some []
  | [_] => none
  | c1 :: c2 :: rest =>
    match hexVal c1, hexVal c2, hexCharsToBytes rest with
    | some h, some l, some bs => some ((16 * h + l) :: bs)
    | _, _, _ => none

/-- Python `bytes.fromhex`: decode a hex string to its bytes, `none` on
invalid input. -/
def fromhex (s : String) : Option (List Nat) := hexCharsToBytes s.data

/-- UTF-8 bytes of a string, as Python's `str.encode()` produces. -/
def utf8Bytes (s : String) : List Nat := s.toUTF8.toList.map (fun b => b.toNat)

/-- `secrets.token_hex n`: the hex rendering of `n` bytes drawn from the
OS random source (here the random bytes are passed in explicitly). -/
def token_hex (n : Nat) (randomBytes : List Nat) : String :=
  bytesToHex (randomBytes.take n)

/-- `hash_password(password, salt=None)` from `main.py`: when no salt is
supplied a fresh one is drawn via `secrets.token_hex(16)`; the hash is
`hashlib.pbkdf2_hmac("sha256", password.encode(), bytes.fromhex(salt), 200000)`
rendered as hex.  A non-hex supplied salt makes `bytes.fromhex` raise
`ValueError`, modelled as `Except.error`. -/
def hash_password (kdf : KDF) (randomBytes : List Nat) (password : String)
    (salt : Option String) : Except PyErr (String × String) :=
  let s := match salt with
    | none => token_hex 16 randomBytes
    | some s => s
  match fromhex s with
  | none => .error .valueError
  | some saltBytes => .ok (s, bytesToHex (kdf "sha256" (utf8Bytes password) saltBytes 200000))

/-- `secrets.compare_digest` on two ASCII strings: true exactly when they
are equal (the constant-time execution profile is a real-time property
outside this functional model). -/
def compare_digest (a b : String) : Bool := a == b

/-- `verify_password(password, salt, password_hash)` from `main.py`:
recompute the hash with the stored salt and compare with
`secrets.compare_digest`.  The `ValueError` from a malformed stored salt
propagates. -/
def verify_password (kdf : KDF) (password salt password_hash : String) :
    Except PyErr Bool :=
  match hash_password kdf [] password (some salt) with
  | .error e => .error e
  | .ok (_, computed) => .ok (compare_digest computed password_hash)

/-- Character at an index below 64 of the URL-safe base64 alphabet used
by `secrets.token_urlsafe`: `A`–`Z`, then `a`–`z`, then `0`–`9`, then
`-` and `_`. -/
def b64urlChar (n : Nat) : Char :=
  if n < 26 then Char.ofNat ('A'.toNat + n)
  else if n < 52 then Char.ofNat ('a'.toNat + (n - 26))
  else if n < 62 then Char.ofNat ('0'.toNat + (n - 52))
  else if n = 62 then '-'
  else '_'

/-- URL-safe base64 of a byte string, without padding, as
`base64.urlsafe_b64encode` followed by stripping `=` produces. -/
def b64urlEncode : List Nat → List Char
  | [] => []
  | [a] => [b64urlChar (a / 4), b64urlChar (a % 4 * 16)]
  | [a, b] => [b64urlChar (a / 4), b64urlChar (a % 4 * 16 + b / 16), b64urlChar (b % 16 * 4)]
  | a :: b :: c :: rest =>
    b64urlChar (a / 4) :: b64urlChar (a % 4 * 16 + b / 16) ::
      b64urlChar (b % 16 * 4 + c / 64) :: b64urlChar (c % 64) :: b64urlEncode rest

/-- `secrets.token_urlsafe n`: URL-safe base64 (no padding) of `n` bytes
drawn from the OS random source (the random bytes are passed in
explicitly). -/
def token_urlsafe (n : Nat) (randomBytes : List Nat) : String :=
  String.mk (b64urlEncode (randomBytes.take n))

/-! ## The document store

`database.py` (providing `db` and `create_document`) is not part of the
excerpted source; the store is the external collaborator of spec §6 with
operations `FindOne`, `Insert -> generatedId` and `Upsert` keyed by a
field.  Only the two collections the auth core touches are modelled. -/

/-- A persisted credential record of the `authuser` collection, with the
store-generated `_id`. -/
structure AuthUserDoc where
  _id : Nat
  name : String
  email : String
  password_hash : String
  salt : String
  created_at : Nat
  updated_at : Nat
deriving DecidableEq, Repr

/-- A persisted session record of the `session` collection. -/
structure SessionDoc where
  user_id : Nat
  token : String
  created_at : Nat
deriving DecidableEq, Repr

/-- The document store state: the `authuser` and `session` collections
(in insertion order) and the next generated identifier. -/
structure Store where
  authusers : List AuthUserDoc
  sessions : List SessionDoc
  nextId : Nat
deriving DecidableEq, Repr

/-- The store with both collections empty. -/
def emptyStore : Store := ⟨[], [], 0⟩

/-- Modelled from the spec: `create_document("authuser", user)` lives in
`database.py`, which is not under src; per spec §6 `Insert(collection,
record) -> generatedId` persists the record and returns its generated
identifier, the same identifier later read back as the record's `_id`. -/
def create_document (st : Store) (name email password_hash salt : String)
    (now : Nat) : Nat × Store :=
  let uid := st.nextId
  (uid,
   { st with
     authusers := st.authusers ++ [⟨uid, name, email, password_hash, salt, now, now⟩],
     nextId := st.nextId + 1 })

/-- Set the token and timestamp on the first session record matching the
user id, as `update_one` updates the first matching document. -/
def setFirstSession : List SessionDoc → Nat → String → Nat → List SessionDoc
  | [], _, _, _ => []
  | s :: rest, uid, tok, now =>
    if s.user_id == uid then { s with token := tok, created_at := now } :: rest
    else s :: setFirstSession rest uid tok now

/-- `db["session"].update_one({"user_id": uid}, {"$set": {...}}, upsert=True)`:
update the first session record keyed by `user_id`, inserting a new one
when none matches (spec §6 `Upsert`, idempotent, creates if absent). -/
def upsertSession (st : Store) (uid : Nat) (tok : String) (now : Nat) : Store :=
  if st.sessions.any (fun s => s.user_id == uid) then
    { st with sessions := setFirstSession st.sessions uid tok now }
  else
    { st with sessions := st.sessions ++ [⟨uid, tok, now⟩] }

/-! ## Endpoints -/

/-- Body of `POST /auth/register`. -/
structure RegisterRequest where
  name : String
  email : String
  password : String
deriving DecidableEq, Repr

/-- Body of `POST /auth/login`. -/
structure LoginRequest where
  email : String
  password : String
deriving DecidableEq, Repr

/-- Response body of both auth endpoints. -/
structure LoginResponse where
  token : String
  name : String
  email : String
deriving DecidableEq, Repr

/-- A failure surfaced by an endpoint: `httpException status detail` is a
raised `fastapi.HTTPException` (the router renders `status` and
`{"detail": detail}`); `internalError` is an uncaught Python exception,
which FastAPI renders as a 500-class response; `storeUnavailable` models
a store write attempted while the database handle is unavailable
(spec §7 `StoreUnavailable`). -/
inductive ApiError where
  | httpException (status : Nat) (detail : String)
  | internalError (e : PyErr)
  | storeUnavailable
deriving DecidableEq, Repr

/-- `register` from `main.py`: duplicate-email pre-check (an exact-match
find, short-circuited to no matches when the database handle `db` is
falsy), fresh salt+hash, credential insert, token issuance via
`secrets.token_urlsafe(24)`, and session upsert keyed on the new user id.
`saltRandom` and `tokenRandom` are the byte streams the two
`secrets` calls draw from; `now` the current UTC instant. -/
def register (kdf : KDF) (dbAvail : Bool) (saltRandom tokenRandom : List Nat)
    (now : Nat) (st : Store) (p : RegisterRequest) :
    Except ApiError LoginResponse × Store :=
  let existing := if dbAvail then st.authusers.filter (fun u => u.email == p.email) else []
  if existing.isEmpty then
    match hash_password kdf saltRandom p.password none with
    | .error e => (.error (.internalError e), st)
    | .ok (salt, pwd_hash) =>
      if dbAvail then
        let (uid, st1) := create_document st p.name p.email pwd_hash salt now
        let token := token_urlsafe 24 tokenRandom
        let st2 := upsertSession st1 uid token now
        (.ok ⟨token, p.name, p.email⟩, st2)
      else (.error .storeUnavailable, st)
  else (.error (.httpException 400 "Email already registered"), st)

/-- `login` from `main.py`: exact-email lookup (`find_one`, `none` when
the database handle is falsy), password verification against the stored
salt and hash (an exception from `verify_password` propagates uncaught),
then token issuance and session upsert keyed on the user's id. -/
def login (kdf : KDF) (dbAvail : Bool) (tokenRandom : List Nat) (now : Nat)
    (st : Store) (p : LoginRequest) : Except ApiError LoginResponse × Store :=
  match (if dbAvail then st.authusers.find? (fun u => u.email == p.email) else none) with
  | none => (.error (.httpException 401 "Invalid credentials"), st)
  | some u =>
    match verify_password kdf p.password u.salt u.password_hash with
    | .error e => (.error (.internalError e), st)
    | .ok false => (.error (.httpException 401 "Invalid credentials"), st)
    | .ok true =>
      let token := token_urlsafe 24 tokenRandom
      let st1 := upsertSession st u._id token now
      (.ok ⟨token, u.name, u.email⟩, st1)

/-- One invocation of an auth endpoint, with the inputs and fresh
randomness it consumes. -/
inductive AuthOp where
  | reg (saltRandom tokenRandom : List Nat) (now : Nat) (p : RegisterRequest)
  | log (tokenRandom : List Nat) (now : Nat) (p : LoginRequest)

/-- The store left by one endpoint invocation. -/
def execOp (kdf : KDF) (dbAvail : Bool) (st : Store) : AuthOp → Store
  | .reg saltRandom tokenRandom now p => (register kdf dbAvail saltRandom tokenRandom now st p).2
  | .log tokenRandom now p => (login kdf dbAvail tokenRandom now st p).2

/-- The store left by a sequence of endpoint invocations. -/
def execOps (kdf : KDF) (dbAvail : Bool) (st : Store) (ops : List AuthOp) : Store :=
  ops.foldl (execOp kdf dbAvail) st

/-- Number of session records keyed by a given user id. -/
def sessionCount (st : Store) (uid : Nat) : Nat :=
  st.sessions.countP (fun s => s.user_id == uid)

/-- At most one session record exists per user id. -/
def atMostOneSession (st : Store) : Prop :=
  ∀ uid, sessionCount st uid ≤ 1

/-! ## Concrete instances used to exercise the parametric theorems -/

/-- A concrete stand-in for the external KDF, used only to instantiate
the parametric theorems on concrete inputs. -/
def kdfConst : KDF := fun _ _ _ _ => []

/-- A sample registration request. -/
def aliceReg : RegisterRequest := ⟨"Alice", "a@x.com", "secret123"⟩

/-- A sample login request. -/
def aliceLogin : LoginRequest := ⟨"a@x.com", "secret123"⟩

/-- A sample stored credential record (its hash is the one `kdfConst`
yields). -/
def aliceUser : AuthUserDoc :=
  ⟨0, "Alice", "a@x.com", "", "07070707070707070707070707070707", 0, 0⟩

/-- A store holding just `aliceUser`. -/
def storeAlice : Store := ⟨[aliceUser], [], 1⟩

/-- A stored credential record whose salt is not valid hex. -/
def bobBadSalt : AuthUserDoc := ⟨0, "Bob", "b@x.com", "", "zz", 0, 0⟩

/-- A store holding just `bobBadSalt`. -/
def storeBadSalt : Store := ⟨[bobBadSalt], [], 1⟩

/-- The response `register` yields on `aliceReg` under `kdfConst` with
salt bytes `7,…,7` and token bytes `1,…,1`. -/
def aliceResp : LoginResponse :=
  ⟨"AQEBAQEBAQEBAQEBAQEBAQEBAQEBAQEB", "Alice", "a@x.com"⟩

/-! ## Lemmas about hex and base64 rendering -/

theorem hexVal_hexDigitChar {n : Nat} (h : n < 16) : hexVal (hexDigitChar n) = some n := by
  interval_cases n <;> rfl

theorem hexCharsToBytes_byteToHex_append {b : Nat} (hb : b < 256) (cs : List Char) :
    hexCharsToBytes (byteToHex b ++ cs) = (hexCharsToBytes cs).map (fun bs => b :: bs) := by
  have hhi : b / 16 < 16 := Nat.div_lt_of_lt_mul hb
  have hlo : b % 16 < 16 := Nat.mod_lt _ (by omega)
  have hb' : 16 * (b / 16) + b % 16 = b := Nat.div_add_mod b 16
  cases hcs : hexCharsToBytes cs with
  | none =>
    simp [byteToHex, hexCharsToBytes, hexVal_hexDigitChar hhi, hexVal_hexDigitChar hlo, hcs]
  | some bs =>
    simp [byteToHex, hexCharsToBytes, hexVal_hexDigitChar hhi, hexVal_hexDigitChar hlo, hcs, hb']

theorem fromhex_bytesToHex {bs : List Nat} (h : ∀ b ∈ bs, b < 256) :
    fromhex (bytesToHex bs) = some bs := by
  unfold fromhex bytesToHex
  induction bs with
  | nil => rfl
  | cons b rest ih =>
    have hb : b < 256 := h b (List.mem_cons_self _ _)
    have hrest := ih (fun x hx => h x (List.mem_cons_of_mem _ hx))
    simp only [List.map_cons, List.flatten_cons]
    rw [hexCharsToBytes_byteToHex_append hb]
    simp only at hrest
    rw [hrest]
    rfl

theorem length_bytesToHex (bs : List Nat) : (bytesToHex bs).length = 2 * bs.length := by
  unfold bytesToHex
  induction bs with
  | nil => rfl
  | cons b rest ih =>
    simp only [List.map_cons, List.flatten_cons, String.length_mk] at ih ⊢
    simp only [List.length_append, byteToHex, List.length_cons, List.length_nil, ih,
      List.length_map]
    omega

theorem length_b64urlEncode : ∀ bs : List Nat, bs.length % 3 = 0 →
    (b64urlEncode bs).length = bs.length / 3 * 4 := by
  intro bs
  induction bs using b64urlEncode.induct with
  | case1 => intro; rfl
  | case2 a => intro h; simp at h
  | case3 a b => intro h; simp at h
  | case4 a b c rest ih =>
    intro h
    simp only [List.length_cons] at h ⊢
    have h3 : rest.length % 3 = 0 := by omega
    simp only [b64urlEncode, List.length_cons, ih h3]
    omega

theorem length_token_urlsafe {r : List Nat} (h : 24 ≤ r.length) :
    (token_urlsafe 24 r).length = 32 := by
  unfold token_urlsafe
  have htake : (r.take 24).length = 24 := by
    simp [List.length_take]
    omega
  simp only [String.length_mk]
  rw [length_b64urlEncode _ (by rw [htake])]
  rw [htake]

/-! ## Lemmas about the session upsert -/

theorem countP_setFirstSession (l : List SessionDoc) (uid : Nat) (tok : String)
    (now u : Nat) :
    (setFirstSession l uid tok now).countP (fun s => s.user_id == u) =
      l.countP (fun s => s.user_id == u) := by
  induction l with
  | nil => rfl
  | cons s rest ih =>
    simp only [setFirstSession]
    split
    · simp [List.countP_cons]
    · simp [List.countP_cons, ih]

theorem atMostOneSession_upsertSession (st : Store)
    (h : ∀ u, st.sessions.countP (fun s => s.user_id == u) ≤ 1)
    (uid : Nat) (tok : String) (now : Nat) :
    atMostOneSession (upsertSession st uid tok now) := by
  intro u
  unfold upsertSession
  split
  · simpa only [sessionCount, countP_setFirstSession] using h u
  · rename_i hany
    simp only [Bool.not_eq_true, List.any_eq_false] at hany
    show (st.sessions ++ [(⟨uid, tok, now⟩ : SessionDoc)]).countP (fun s => s.user_id == u) ≤ 1
    rw [List.countP_append]
    by_cases hu : u = uid
    · subst hu
      have hzero : st.sessions.countP (fun s => s.user_id == u) = 0 := by
        rw [List.countP_eq_zero]
        intro s hs
        simpa using hany s hs
      simp [sessionCount, hzero, List.countP_cons]
    · have : ((⟨uid, tok, now⟩ : SessionDoc).user_id == u) = false := by
        simp [Ne.symm hu]
      simpa [List.countP_cons, this] using h u

theorem sessionCount_upsertSession_self {st : Store} {uid : Nat}
    (h : sessionCount st uid ≤ 1) (tok : String) (now : Nat) :
    sessionCount (upsertSession st uid tok now) uid = 1 := by
  unfold upsertSession
  split
  · rename_i hany
    rw [List.any_eq_true] at hany
    obtain ⟨s, hs, hsuid⟩ := hany
    have hpos : 0 < st.sessions.countP (fun s => s.user_id == uid) :=
      List.countP_pos_iff.mpr ⟨s, hs, hsuid⟩
    show (setFirstSession st.sessions uid tok now).countP (fun s => s.user_id == uid) = 1
    rw [countP_setFirstSession]
    have := h
    simp only [sessionCount] at this
    omega
  · rename_i hany
    simp only [Bool.not_eq_true, List.any_eq_false] at hany
    have hzero : st.sessions.countP (fun s => s.user_id == uid) = 0 := by
      rw [List.countP_eq_zero]
      intro s hs
      simpa using hany s hs
    show (st.sessions ++ [(⟨uid, tok, now⟩ : SessionDoc)]).countP (fun s => s.user_id == uid) = 1
    rw [List.countP_append, hzero]
    simp [List.countP_cons]

theorem atMostOneSession_execOp (kdf : KDF) (dbAvail : Bool) (st : Store)
    (op : AuthOp) (h : atMostOneSession st) :
    atMostOneSession (execOp kdf dbAvail st op) := by
  cases op with
  | reg saltRandom tokenRandom now p =>
    simp only [execOp, register]
    repeat' split
    all_goals first
      | exact h
      | (show atMostOneSession (upsertSession _ _ _ _)
         refine atMostOneSession_upsertSession _ ?_ _ _ _
         exact fun u => h u)
  | log tokenRandom now p =>
    simp only [execOp, login]
    repeat' split
    all_goals first
      | exact h
      | (show atMostOneSession (upsertSession _ _ _ _)
         refine atMostOneSession_upsertSession _ ?_ _ _ _
         exact fun u => h u)

theorem atMostOneSession_execOps (kdf : KDF) (dbAvail : Bool) (ops : List AuthOp)
    (st : Store) (h : atMostOneSession st) :
    atMostOneSession (execOps kdf dbAvail st ops) := by
  induction ops generalizing st with
  | nil => exact h
  | cons op rest ih =>
    exact ih _ (atMostOneSession_execOp kdf dbAvail st op h)

/-! ## Claim theorems -/

/-- Claim C1: for every password `P` and every valid-hex salt `S`,
verifying `P` against the hash produced from `(P, S)` succeeds:
`verify_password P S (snd (hash_password P S))` returns true. -/
theorem claim_C1_verify_of_hash (kdf : KDF) (randomBytes : List Nat) (P S : String)
    (hS : (fromhex S).isSome) :
    ∃ H, hash_password kdf randomBytes P (some S) = .ok (S, H) ∧
      verify_password kdf P S H = .ok true := by
  obtain ⟨bs, hbs⟩ := Option.isSome_iff_exists.mp hS
  refine ⟨bytesToHex (kdf "sha256" (utf8Bytes P) bs 200000), ?_, ?_⟩
  · simp [hash_password, hbs]
  · simp [verify_password, hash_password, hbs, compare_digest]

/-- Witness for C1 at password `"pw"` and salt `"aa"`. -/
theorem claim_C1_witness :
    ∃ H, hash_password kdfConst [] "pw" (some "aa") = .ok ("aa", H) ∧
      verify_password kdfConst "pw" "aa" H = .ok true :=
  claim_C1_verify_of_hash kdfConst [] "pw" "aa" (by decide)

/-- Claim C7: for every password `P` and every valid-hex salt `S`, two
calls to `hash_password` with the salt supplied return the same
`(salt, hash)` pair, whatever fresh randomness each call could draw:
the hash is a deterministic function of password and salt. -/
theorem claim_C7_deterministic_given_salt (kdf : KDF) (r1 r2 : List Nat) (P S : String)
    (hS : (fromhex S).isSome) :
    hash_password kdf r1 P (some S) = hash_password kdf r2 P (some S) ∧
    ∃ H, hash_password kdf r1 P (some S) = .ok (S, H) := by
  obtain ⟨bs, hbs⟩ := Option.isSome_iff_exists.mp hS
  refine ⟨rfl, ⟨bytesToHex (kdf "sha256" (utf8Bytes P) bs 200000), ?_⟩⟩
  simp [hash_password, hbs]

/-- Witness for C7 at password `"pw"`, salt `"aa"` and two different
random streams. -/
theorem claim_C7_witness :
    hash_password kdfConst [1, 2] "pw" (some "aa") =
      hash_password kdfConst [3] "pw" (some "aa") ∧
    ∃ H, hash_password kdfConst [1, 2] "pw" (some "aa") = .ok ("aa", H) :=
  claim_C7_deterministic_given_salt kdfConst [1, 2] [3] "pw" "aa" (by decide)

/-- Claim C6: called without a salt, `hash_password` returns a salt that
is the 32-character hex rendering of the 16 random bytes drawn from the
OS, and a hash that is the hex rendering of the KDF applied to the UTF-8
bytes of the password and the raw salt bytes with 200000 iterations. -/
theorem claim_C6_fresh_salt (kdf : KDF) (randomBytes : List Nat) (P : String)
    (hlen : 16 ≤ randomBytes.length) (hbytes : ∀ b ∈ randomBytes, b < 256) :
    ∃ salt hash, hash_password kdf randomBytes P none = .ok (salt, hash) ∧
      salt = bytesToHex (randomBytes.take 16) ∧
      (randomBytes.take 16).length = 16 ∧
      salt.length = 32 ∧
      fromhex salt = some (randomBytes.take 16) ∧
      hash = bytesToHex (kdf "sha256" (utf8Bytes P) (randomBytes.take 16) 200000) := by
  have htake16 : (randomBytes.take 16).length = 16 := by
    simp [List.length_take]
    omega
  have hb16 : ∀ b ∈ randomBytes.take 16, b < 256 :=
    fun b hb => hbytes b (List.take_subset _ _ hb)
  have hround : fromhex (bytesToHex (randomBytes.take 16)) = some (randomBytes.take 16) :=
    fromhex_bytesToHex hb16
  refine ⟨_, _, ?_, rfl, htake16, ?_, hround, rfl⟩
  · simp [hash_password, token_hex, hround]
  · rw [length_bytesToHex, htake16]

/-- Witness for C6 at password `"pw"` and 16 random bytes `7,…,7`. -/
theorem claim_C6_witness :
    ∃ salt hash,
      hash_password kdfConst (List.replicate 16 7) "pw" none = .ok (salt, hash) ∧
      salt = bytesToHex ((List.replicate 16 7).take 16) ∧
      ((List.replicate 16 7).take 16).length = 16 ∧
      salt.length = 32 ∧
      fromhex salt = some ((List.replicate 16 7).take 16) ∧
      hash = bytesToHex (kdfConst "sha256" (utf8Bytes "pw")
        ((List.replicate 16 7).take 16) 200000) :=
  claim_C6_fresh_salt kdfConst (List.replicate 16 7) "pw" (by decide) (by decide)

/-- Claim C2: on login, both an unknown email and a failed password
verification produce the very same generic 401 `Invalid credentials`
failure, and the store (in particular the session collection) is left
unchanged. -/
theorem claim_C2_login_generic_error (kdf : KDF) (tokenRandom : List Nat) (now : Nat)
    (st : Store) (p : LoginRequest)
    (h : st.authusers.find? (fun u => u.email == p.email) = none ∨
      ∃ u, st.authusers.find? (fun u => u.email == p.email) = some u ∧
        verify_password kdf p.password u.salt u.password_hash = .ok false) :
    login kdf true tokenRandom now st p =
      (.error (.httpException 401 "Invalid credentials"), st) := by
  rcases h with hn | ⟨u, hu, hv⟩
  · simp [login, hn]
  · simp [login, hu, hv]

/-- Witness for C2: login against the empty store (no such email). -/
theorem claim_C2_witness :
    login kdfConst true [] 0 emptyStore aliceLogin =
      (.error (.httpException 401 "Invalid credentials"), emptyStore) :=
  claim_C2_login_generic_error kdfConst [] 0 emptyStore aliceLogin (Or.inl rfl)

/-- Claim C3: registration with an email that already has a credential
record fails with the 400 duplicate-email client error and leaves the
store unchanged: no credential record is inserted and no session record
is upserted. -/
theorem claim_C3_duplicate_email (kdf : KDF) (saltRandom tokenRandom : List Nat)
    (now : Nat) (st : Store) (p : RegisterRequest) (u : AuthUserDoc)
    (hu : u ∈ st.authusers) (he : u.email = p.email) :
    register kdf true saltRandom tokenRandom now st p =
      (.error (.httpException 400 "Email already registered"), st) := by
  have hmem : u ∈ st.authusers.filter (fun v => v.email == p.email) :=
    List.mem_filter.mpr ⟨hu, by simp [he]⟩
  have hne : (st.authusers.filter (fun v => v.email == p.email)).isEmpty = false := by
    cases hfil : st.authusers.filter (fun v => v.email == p.email) with
    | nil => rw [hfil] at hmem; simp at hmem
    | cons a l => rfl
  simp [register, hne]

/-- Witness for C3: a second registration of `aliceReg`'s email. -/
theorem claim_C3_witness :
    register kdfConst true [] [] 0 storeAlice aliceReg =
      (.error (.httpException 400 "Email already registered"), storeAlice) :=
  claim_C3_duplicate_email kdfConst [] [] 0 storeAlice aliceReg aliceUser
    (by decide) rfl

/-- Claim C9: when the stored salt of the looked-up user is not valid
hex, login surfaces the propagated `ValueError` as an internal
(500-class) error, never the generic 401 `Invalid credentials`. -/
theorem claim_C9_malformed_salt (kdf : KDF) (tokenRandom : List Nat) (now : Nat)
    (st : Store) (p : LoginRequest) (u : AuthUserDoc)
    (hu : st.authusers.find? (fun x => x.email == p.email) = some u)
    (hbad : fromhex u.salt = none) :
    login kdf true tokenRandom now st p = (.error (.internalError .valueError), st) ∧
    (login kdf true tokenRandom now st p).1 ≠
      .error (.httpException 401 "Invalid credentials") := by
  have hv : verify_password kdf p.password u.salt u.password_hash = .error .valueError := by
    simp [verify_password, hash_password, hbad]
  constructor
  · simp [login, hu, hv]
  · simp [login, hu, hv]

/-- Witness for C9: login for a stored user whose salt is `"zz"`. -/
theorem claim_C9_witness :
    (login kdfConst true [] 0 storeBadSalt ⟨"b@x.com", "pw"⟩ =
      (.error (.internalError .valueError), storeBadSalt)) ∧
    (login kdfConst true [] 0 storeBadSalt ⟨"b@x.com", "pw"⟩).1 ≠
      .error (.httpException 401 "Invalid credentials") :=
  claim_C9_malformed_salt kdfConst [] 0 storeBadSalt ⟨"b@x.com", "pw"⟩ bobBadSalt
    rfl (by decide)

/-- Claim C10: with the database handle unavailable, the duplicate-email
pre-check short-circuits to no matches, so registration never fails with
the duplicate-email error whatever the store holds; it proceeds past the
password hashing to the write attempt, which fails as the store is
unreachable. -/
theorem claim_C10_db_unavailable (kdf : KDF) (saltRandom tokenRandom : List Nat)
    (now : Nat) (st : Store) (p : RegisterRequest)
    (hbytes : ∀ b ∈ saltRandom, b < 256) :
    register kdf false saltRandom tokenRandom now st p =
      (.error .storeUnavailable, st) ∧
    (register kdf false saltRandom tokenRandom now st p).1 ≠
      .error (.httpException 400 "Email already registered") := by
  have hround : fromhex (bytesToHex (saltRandom.take 16)) = some (saltRandom.take 16) :=
    fromhex_bytesToHex (fun b hb => hbytes b (List.take_subset 16 saltRandom hb))
  constructor
  · simp [register, hash_password, token_hex, hround]
  · simp [register, hash_password, token_hex, hround]

/-- Witness for C10: registration of `aliceReg` over a store already
holding her email, with the database handle unavailable. -/
theorem claim_C10_witness :
    register kdfConst false [] [] 0 storeAlice aliceReg =
      (.error .storeUnavailable, storeAlice) ∧
    (register kdfConst false [] [] 0 storeAlice aliceReg).1 ≠
      .error (.httpException 400 "Email already registered") :=
  claim_C10_db_unavailable kdfConst [] [] 0 storeAlice aliceReg (by simp)

/-- Claim C4: starting from a store with at most one session record per
user id (e.g. the empty store), any sequence of register and login
operations preserves that invariant, and upserting the session twice for
the same user id leaves exactly one session record for that id. -/
theorem claim_C4_single_session_per_user (kdf : KDF) (dbAvail : Bool)
    (ops : List AuthOp) (st : Store) (h : atMostOneSession st) :
    atMostOneSession (execOps kdf dbAvail st ops) ∧
    ∀ uid tok tok' now now',
      sessionCount (upsertSession (upsertSession st uid tok now) uid tok' now') uid = 1 := by
  constructor
  · exact atMostOneSession_execOps kdf dbAvail ops st h
  · intro uid tok tok' now now'
    have h1 : sessionCount (upsertSession st uid tok now) uid = 1 :=
      sessionCount_upsertSession_self (h uid) tok now
    exact sessionCount_upsertSession_self (le_of_eq h1) tok' now'

/-- Witness for C4: a register followed by a login from the empty store,
and a double upsert for user id 5. -/
theorem claim_C4_witness :
    sessionCount (execOps kdfConst true emptyStore
      [AuthOp.reg (List.replicate 16 7) (List.replicate 24 1) 0 aliceReg,
       AuthOp.log (List.replicate 24 2) 1 aliceLogin]) 0 ≤ 1 ∧
    sessionCount (upsertSession (upsertSession emptyStore 5 "t" 0) 5 "u" 1) 5 = 1 :=
  ⟨(claim_C4_single_session_per_user kdfConst true
      [AuthOp.reg (List.replicate 16 7) (List.replicate 24 1) 0 aliceReg,
       AuthOp.log (List.replicate 24 2) 1 aliceLogin] emptyStore
      (fun u => by simp [sessionCount, emptyStore])).1 0,
   (claim_C4_single_session_per_user kdfConst true [] emptyStore
      (fun u => by simp [sessionCount, emptyStore])).2 5 "t" "u" 0 1⟩

/-- Claim C5: every token issued by a successful register or login is
`secrets.token_urlsafe` applied to 24 fresh random bytes, so the
returned token string has length at least 32 (in fact exactly 32). -/
theorem claim_C5_token_length (kdf : KDF) (dbAvail : Bool)
    (saltRandom tokenRandom : List Nat) (now now' : Nat) (st st' : Store)
    (p : RegisterRequest) (q : LoginRequest) (resp : LoginResponse)
    (hlen : 24 ≤ tokenRandom.length)
    (h : (register kdf dbAvail saltRandom tokenRandom now st p).1 = .ok resp ∨
      (login kdf dbAvail tokenRandom now' st' q).1 = .ok resp) :
    32 ≤ resp.token.length := by
  have htok : (token_urlsafe 24 tokenRandom).length = 32 := length_token_urlsafe hlen
  rcases h with h | h
  · unfold register at h
    repeat' split at h
    all_goals try simp at h
    all_goals try split at h
    all_goals try simp at h
    all_goals (rw [← h]; simp [htok])
  · unfold login at h
    repeat' split at h
    all_goals try simp at h
    all_goals (rw [← h]; simp [htok])

/-- Witness for C5: the token of a successful registration from the
empty store. -/
theorem claim_C5_witness : 32 ≤ aliceResp.token.length :=
  claim_C5_token_length kdfConst true (List.replicate 16 7) (List.replicate 24 1)
    0 0 emptyStore emptyStore aliceReg aliceLogin aliceResp (by simp)
    (Or.inl rfl)

end SaaS
